import Mathlib

/-!
Verification of the FreightInvoiceAgent rating and invoicing engine.

This file contains a shallow embedding, in Lean 4, of the core engine of the
repository (app/services/invoice_generator.py and app/services/payment_tracker.py):
rate-card resolution, surcharge applicability, line-item calculation, invoice
numbering, invoice generation, payment application and the overdue sweep.
Monetary values and quantities are modelled as rationals, dates as integers
(ordinal days), database rows as Lean structures and the database session as an
explicit record of row lists.  Fallible operations return `Except`.
Theorems about the embedded definitions settle the specification claims.
-/

/- Restore default reducibility of the rational-number arithmetic primitives so
that concrete instances of the engine's computations can be settled by kernel
evaluation (`decide`).  This affects elaboration only; the kernel is unchanged. -/
set_option allowUnsafeReducibility true in
attribute [semireducible] Rat.mul Rat.inv Rat.add Rat.sub Rat.neg

/-- The floor of a rational number, computed by floor division of the
numerator by the denominator. -/
def qfloor (x : ℚ) : ℤ :=
  x.num.fdiv (x.den : ℤ)

/-- Rounding to 2 decimal places, as Python's `round(x, 2)`: round half to even
(banker's rounding) on the exact rational value. -/
def round2 (x : ℚ) : ℚ :=
  let y := 100 * x
  let f : ℤ := qfloor y
  let r := y - (f : ℚ)
  let n : ℤ :=
    if r < 1/2 then f
    else if 1/2 < r then f + 1
    else if f % 2 = 0 then f else f + 1
  (n : ℚ) / 100

/-- Python's `x or d` idiom on an optional integer column: `None` and `0` both
fall back to the default `d`. -/
def orElseInt (x : Option ℤ) (d : ℤ) : ℤ :=
  match x with
  | none => d
  | some n => if n = 0 then d else n

/-- Python's `x or d` idiom on an optional numeric (float) column: `None` and
`0.0` both fall back to the default `d`. -/
def orElseQ (x : Option ℚ) (d : ℚ) : ℚ :=
  match x with
  | none => d
  | some q => if q = 0 then d else q

/- ### Data model (app/models) -/

/-- A row of the `ports` table (app/models/port.py). -/
structure Port where
  id : ℕ
  port_code : String
  region : String
deriving DecidableEq

/-- A row of the `rate_cards` table (app/models/rate_card.py).
`effective_from` is a date modelled as an integer ordinal. -/
structure RateCard where
  id : ℕ
  origin_port_id : ℕ
  destination_port_id : ℕ
  container_type : String
  base_ocean_freight : ℚ
  effective_from : ℤ
  is_active : Bool
deriving DecidableEq

/-- A row of the `surcharges` table (app/models/surcharge.py). -/
structure Surcharge where
  id : ℕ
  charge_code : String
  charge_name : String
  calculation_type : String
  amount : ℚ
  applies_to : String
  origin_port_id : Option ℕ
  destination_port_id : Option ℕ
  is_active : Bool
deriving DecidableEq

/-- A row of the `shipments` table (app/models/shipment.py), restricted to the
columns the engine reads. -/
structure Shipment where
  id : ℕ
  shipper_id : ℕ
  consignee_id : ℕ
  origin_port_id : ℕ
  destination_port_id : ℕ
  container_type : String
  container_count : Option ℤ
  cbm : Option ℚ
  bill_to : String
deriving DecidableEq

/-- A row of the `clients` table, restricted to what Generate reads. -/
structure Client where
  id : ℕ
  payment_terms_days : Option ℤ
deriving DecidableEq

/-- A row of the `invoices` table (app/models/invoice.py). -/
structure Invoice where
  id : ℕ
  invoice_number : String
  shipment_id : ℕ
  client_id : ℕ
  issue_date : ℤ
  due_date : ℤ
  subtotal : ℚ
  tax_amount : ℚ
  total_amount : ℚ
  amount_paid : ℚ
  balance_due : ℚ
  status : String
deriving DecidableEq

/-- A row of the `invoice_lines` table (app/models/invoice_line.py). -/
structure InvoiceLine where
  invoice_id : ℕ
  line_order : ℕ
  charge_code : String
  description : String
  quantity : ℚ
  unit_price : ℚ
  line_total : ℚ
deriving DecidableEq

/-- A row of the `payments` table (app/models/payment.py). -/
structure Payment where
  invoice_id : ℕ
  payment_date : ℤ
  amount : ℚ
  payment_method : String
  reference_number : String
  notes : String
deriving DecidableEq

/-- One line-item dict produced by `calculate_line_items`. -/
structure LineItem where
  charge_code : String
  description : String
  quantity : ℚ
  unit_price : ℚ
  line_total : ℚ
deriving DecidableEq

/-- The database session: the row lists the engine queries and mutates. -/
structure Db where
  ports : List Port
  clients : List Client
  shipments : List Shipment
  rate_cards : List RateCard
  surcharges : List Surcharge
  invoices : List Invoice
  invoice_lines : List InvoiceLine
  payments : List Payment
deriving DecidableEq

/- ### Constants (invoice_generator.py lines 15-19) -/

/-- Container types considered FCL. -/
def FCL_TYPES : List String := ["20GP", "40GP", "40HC"]

/-- Minimum ocean freight threshold for the LCL_MIN surcharge. -/
def LCL_MIN_THRESHOLD : ℚ := 120

/- ### Invoice numbering (invoice_generator.py lines 22-40) -/

/-- `p` is a prefix of `s`, on the underlying character lists; models both the
SQL pattern filter `LIKE "INV-2026-%"` and Python's `str.startswith`. -/
def strStartsWith (s p : String) : Bool :=
  p.data.isPrefixOf s.data

/-- The lexicographically greatest string of a list (`None` on the empty list);
models `SELECT MAX(...)` over a string column. -/
def maxString : List String → Option String
  | [] => none
  | x :: xs =>
    match maxString xs with
    | none => some x
    | some y => if x.data < y.data then some y else some x

/-- The last `"-"`-separated segment of a string, i.e. Python's
`s.split("-")[-1]`: everything after the final `'-'` (the whole string when no
`'-'` occurs). -/
def lastSegment (s : String) : String :=
  String.mk ((s.data.reverse.takeWhile (fun c => c ≠ '-')).reverse)

/-- Parse a non-empty all-digit character list as a natural number; `none`
otherwise.  Models `int(...)` raising `ValueError` on the strings the engine
encounters. -/
def parseNatDigits (l : List Char) : Option ℕ :=
  if l ≠ [] ∧ l.all (fun c => c.isDigit) then
    some (l.foldl (fun n c => 10 * n + (c.toNat - 48)) 0)
  else
    none

/-- Python's `f"{n:04d}"` for a natural number: decimal digits left-padded with
zeros to at least four characters. -/
def pad4 (n : ℕ) : String :=
  let s := Nat.repr n
  String.mk (List.replicate (4 - s.length) '0' ++ s.data)

/-- `get_next_invoice_number` (invoice_generator.py lines 22-40): take the
maximum stored invoice number with prefix `"INV-2026-"`; if none exists return
`"INV-2026-0001"`; otherwise parse the trailing segment (`0` on parse failure),
increment and zero-pad to 4 digits. -/
def get_next_invoice_number (invoices : List Invoice) : String :=
  let matching := (invoices.map (fun i => i.invoice_number)).filter
    (fun s => strStartsWith s "INV-2026-")
  match maxString matching with
  | none => "INV-2026-0001"
  | some m =>
    let sequence := (parseNatDigits (lastSegment m).data).getD 0
    "INV-2026-" ++ pad4 (sequence + 1)

/- ### Rate resolution (invoice_generator.py lines 43-123) -/

/-- The first row attaining the maximal `effective_from` in a list of rate
cards, `none` on the empty list; models `.order_by(RateCard.effective_from
.desc()).first()` with ties broken deterministically by row order. -/
def firstMaxByEffective : List RateCard → Option RateCard
  | [] => none
  | x :: xs =>
    match firstMaxByEffective xs with
    | none => some x
    | some y => if x.effective_from < y.effective_from then some y else some x

/-- Tier-1 filter of `find_rate_card`: exact origin, exact destination,
container type, active. -/
def exactPred (o d : ℕ) (t : String) (c : RateCard) : Bool :=
  c.origin_port_id == o && c.destination_port_id == d &&
    c.container_type == t && c.is_active

/-- The ids of all ports sharing a given region. -/
def regionPortIds (ports : List Port) (region : String) : List ℕ :=
  (ports.filter (fun p => p.region == region)).map (fun p => p.id)

/-- Tier-2 filter of `find_rate_card`: origin in the origin port's region,
exact destination, container type, active. -/
def regionPred (ids : List ℕ) (d : ℕ) (t : String) (c : RateCard) : Bool :=
  ids.contains c.origin_port_id && c.destination_port_id == d &&
    c.container_type == t && c.is_active

/-- Tier-3 filter of `find_rate_card`: origin in the origin port's region,
destination in the destination port's region, container type, active. -/
def broadPred (ids dids : List ℕ) (t : String) (c : RateCard) : Bool :=
  ids.contains c.origin_port_id && dids.contains c.destination_port_id &&
    c.container_type == t && c.is_active

/-- `find_rate_card` (invoice_generator.py lines 43-123): the tiered cascade.
Tier 1 exact match; else resolve the origin port (failing if absent), tier 2
same-region origin to exact destination; else resolve the destination port
(failing if absent), tier 3 region to region.  Each tier picks the most
recently effective card. -/
def find_rate_card (ports : List Port) (cards : List RateCard)
    (origin_port_id dest_port_id : ℕ) (container_type : String) :
    Option RateCard :=
  match firstMaxByEffective
      (cards.filter (exactPred origin_port_id dest_port_id container_type)) with
  | some c => some c
  | none =>
    match ports.find? (fun p => p.id == origin_port_id) with
    | none => none
    | some origin_port =>
      let region_port_ids := regionPortIds ports origin_port.region
      match firstMaxByEffective
          (cards.filter (regionPred region_port_ids dest_port_id container_type)) with
      | some c => some c
      | none =>
        match ports.find? (fun p => p.id == dest_port_id) with
        | none => none
        | some dest_port =>
          let dest_region_port_ids := regionPortIds ports dest_port.region
          firstMaxByEffective
            (cards.filter (broadPred region_port_ids dest_region_port_ids container_type))

/- ### Surcharge applicability (invoice_generator.py lines 126-159) -/

/-- `get_applicable_surcharges` (invoice_generator.py lines 126-159): filter
the active catalog by container category (`FCL`/`LCL`/`all`) and by the
optional origin/destination port filters. -/
def get_applicable_surcharges (surcharges : List Surcharge)
    (origin_port_id dest_port_id : ℕ) (container_type : String) :
    List Surcharge :=
  let category := if FCL_TYPES.contains container_type then "FCL" else "LCL"
  (surcharges.filter (fun s => s.is_active)).filter (fun s =>
    (s.applies_to == category || s.applies_to == "all") &&
    (match s.origin_port_id with
     | none => true
     | some p => p == origin_port_id) &&
    (match s.destination_port_id with
     | none => true
     | some p => p == dest_port_id))

/- ### Line-item calculation (invoice_generator.py lines 162-248) -/

/-- The unrounded ocean-freight total of `calculate_line_items`
(invoice_generator.py lines 176-196): rate times CBM (floored at 1) for LCL,
rate times container count (`or 1`) otherwise. -/
def ocean_freight_total (s : Shipment) (rc : RateCard) : ℚ :=
  if s.container_type == "LCL" then
    rc.base_ocean_freight * max (orElseQ s.cbm 0) 1
  else
    rc.base_ocean_freight * ((orElseInt s.container_count 1 : ℤ) : ℚ)

/-- The ocean-freight line of `calculate_line_items` (invoice_generator.py
lines 176-196). -/
def oceanLine (s : Shipment) (rc : RateCard) : LineItem :=
  if s.container_type == "LCL" then
    { charge_code := "OFR", description := "Ocean Freight",
      quantity := max (orElseQ s.cbm 0) 1,
      unit_price := rc.base_ocean_freight,
      line_total := round2 (ocean_freight_total s rc) }
  else
    { charge_code := "OFR", description := "Ocean Freight",
      quantity := ((orElseInt s.container_count 1 : ℤ) : ℚ),
      unit_price := rc.base_ocean_freight,
      line_total := round2 (ocean_freight_total s rc) }

/-- The surcharge line produced for one surcharge by the loop of
`calculate_line_items` (invoice_generator.py lines 201-243); `none` when the
loop appends nothing for it. -/
def surchargeLine (s : Shipment) (oft : ℚ) (su : Surcharge) : Option LineItem :=
  let is_lcl := s.container_type == "LCL"
  if su.calculation_type == "per_container" && !is_lcl then
    let count := orElseInt s.container_count 1
    some { charge_code := su.charge_code, description := su.charge_name,
           quantity := ((count : ℤ) : ℚ), unit_price := su.amount,
           line_total := round2 (su.amount * ((count : ℤ) : ℚ)) }
  else if su.calculation_type == "per_cbm" && is_lcl then
    let cbm := max (orElseQ s.cbm 0) 1
    some { charge_code := su.charge_code, description := su.charge_name,
           quantity := cbm, unit_price := su.amount,
           line_total := round2 (su.amount * cbm) }
  else if su.calculation_type == "fixed" then
    if su.charge_code == "LCL_MIN" && is_lcl && decide (LCL_MIN_THRESHOLD ≤ oft) then
      none
    else
      some { charge_code := su.charge_code, description := su.charge_name,
             quantity := 1, unit_price := su.amount,
             line_total := round2 su.amount }
  else if su.calculation_type == "percentage" then
    let pct_amount := su.amount / 100 * oft
    some { charge_code := su.charge_code, description := su.charge_name,
           quantity := 1, unit_price := round2 pct_amount,
           line_total := round2 pct_amount }
  else
    none

/-- The ordering relation of the final sort of `calculate_line_items`:
ascending by charge code (compared as its character list, which is the same
ordering as `String`'s own, by `String.le_iff_toList_le`). -/
def lineLe (a b : LineItem) : Prop :=
  a.charge_code.data ≤ b.charge_code.data

instance : DecidableRel lineLe :=
  fun a b => inferInstanceAs (Decidable (a.charge_code.data ≤ b.charge_code.data))

instance : IsTotal LineItem lineLe :=
  ⟨fun a b => le_total a.charge_code.data b.charge_code.data⟩

instance : IsTrans LineItem lineLe :=
  ⟨fun _ _ _ h1 h2 => le_trans h1 h2⟩

/-- `calculate_line_items` (invoice_generator.py lines 162-248): the ocean
freight line, followed by the surcharge lines sorted (stably) by charge
code. -/
def calculate_line_items (s : Shipment) (rc : RateCard)
    (surcharges : List Surcharge) : List LineItem :=
  let oft := ocean_freight_total s rc
  let surcharge_lines := surcharges.filterMap (surchargeLine s oft)
  oceanLine s rc :: List.insertionSort lineLe surcharge_lines

/- ### Invoice generation (invoice_generator.py lines 251-345) -/

/-- The failure modes of `generate_invoice` (each a `ValueError` in the
source, distinguished by message). -/
inductive GenError
  | shipmentNotFound
  | conflict
  | clientNotFound
  | noRateCard
deriving DecidableEq

deriving instance DecidableEq for Except

/-- `generate_invoice` (invoice_generator.py lines 251-345): load the shipment,
fail on any existing invoice for it, resolve the bill-to client, resolve the
rate card, compute line items, and create the invoice (status `draft`) together
with its lines.  Errors are raised before any write, so on error the session is
unchanged and no value is produced. -/
def generate_invoice (db : Db) (shipment_id : ℕ) (today : ℤ) :
    Except GenError (Db × Invoice) :=
  match db.shipments.find? (fun s => s.id == shipment_id) with
  | none => .error .shipmentNotFound
  | some shipment =>
    match db.invoices.find? (fun i => i.shipment_id == shipment_id) with
    | some _ => .error .conflict
    | none =>
      let clientOpt :=
        if shipment.bill_to == "consignee" then
          db.clients.find? (fun c => c.id == shipment.consignee_id)
        else
          db.clients.find? (fun c => c.id == shipment.shipper_id)
      match clientOpt with
      | none => .error .clientNotFound
      | some client =>
        match find_rate_card db.ports db.rate_cards shipment.origin_port_id
            shipment.destination_port_id shipment.container_type with
        | none => .error .noRateCard
        | some rate_card =>
          let surcharges := get_applicable_surcharges db.surcharges
            shipment.origin_port_id shipment.destination_port_id
            shipment.container_type
          let line_items := calculate_line_items shipment rate_card surcharges
          let subtotal := (line_items.map (fun li => li.line_total)).sum
          let tax_amount : ℚ := 0
          let total_amount := subtotal + tax_amount
          let payment_terms := orElseInt client.payment_terms_days 30
          let invoice : Invoice :=
            { id := db.invoices.length + 1,
              invoice_number := get_next_invoice_number db.invoices,
              shipment_id := shipment_id,
              client_id := client.id,
              issue_date := today,
              due_date := today + payment_terms,
              subtotal := round2 subtotal,
              tax_amount := round2 tax_amount,
              total_amount := round2 total_amount,
              amount_paid := 0,
              balance_due := round2 total_amount,
              status := "draft" }
          let lines := line_items.enum.map (fun p =>
            { invoice_id := invoice.id,
              line_order := p.1 + 1,
              charge_code := p.2.charge_code,
              description := p.2.description,
              quantity := p.2.quantity,
              unit_price := p.2.unit_price,
              line_total := p.2.line_total : InvoiceLine })
          .ok ({ db with invoices := db.invoices ++ [invoice],
                         invoice_lines := db.invoice_lines ++ lines }, invoice)

/- ### Payment application (payment_tracker.py lines 11-53) -/

/-- The failure mode of `record_payment`. -/
inductive PayError
  | invoiceNotFound
deriving DecidableEq

/-- The invoice mutation of `record_payment` (payment_tracker.py lines 40-49):
add the amount to `amount_paid`, recompute `balance_due`, clamp it at zero and
set status `"paid"` when it is non-positive, else set status `"partial"` when
anything has been paid. -/
def apply_payment_update (inv : Invoice) (amount : ℚ) : Invoice :=
  let amount_paid := inv.amount_paid + amount
  let balance_due := inv.total_amount - amount_paid
  if balance_due ≤ 0 then
    { inv with amount_paid := amount_paid, balance_due := 0, status := "paid" }
  else if 0 < amount_paid then
    { inv with amount_paid := amount_paid, balance_due := balance_due,
               status := "partial" }
  else
    { inv with amount_paid := amount_paid, balance_due := balance_due }

/-- `record_payment` (payment_tracker.py lines 11-53): fail if the invoice is
absent; otherwise append an immutable payment row and update the invoice via
`apply_payment_update`. -/
def record_payment (db : Db) (invoice_id : ℕ) (amount : ℚ)
    (payment_date : ℤ) (payment_method reference_number notes : String) :
    Except PayError (Db × Payment) :=
  match db.invoices.find? (fun i => i.id == invoice_id) with
  | none => .error .invoiceNotFound
  | some _ =>
    let payment : Payment :=
      { invoice_id := invoice_id, payment_date := payment_date,
        amount := amount, payment_method := payment_method,
        reference_number := reference_number, notes := notes }
    let invoices := db.invoices.map (fun inv =>
      if inv.id == invoice_id then apply_payment_update inv amount else inv)
    .ok ({ db with invoices := invoices,
                   payments := db.payments ++ [payment] }, payment)

/- ### Overdue sweep (payment_tracker.py lines 56-80) -/

/-- The per-invoice condition of `check_overdue`: status exactly `"sent"` and
due date strictly before today. -/
def overduePred (today : ℤ) (i : Invoice) : Bool :=
  i.status == "sent" && decide (i.due_date < today)

/-- `check_overdue` (payment_tracker.py lines 56-80): mark every `"sent"`
invoice whose due date is strictly past as `"overdue"`; return the updated
session and the number of invoices affected. -/
def check_overdue (db : Db) (today : ℤ) : Db × ℕ :=
  let invoices := db.invoices.map (fun i =>
    if overduePred today i then { i with status := "overdue" } else i)
  ({ db with invoices := invoices },
   (db.invoices.filter (overduePred today)).length)

/- ### Concrete fixtures used by witnesses and counterexamples -/

/-- An LCL shipment with 4 CBM. -/
def lclShipment : Shipment :=
  { id := 1, shipper_id := 1, consignee_id := 2, origin_port_id := 1,
    destination_port_id := 2, container_type := "LCL", container_count := none,
    cbm := some 4, bill_to := "shipper" }

/-- An LCL rate card at 6.001 per CBM (so the ocean-freight total 24.004 has a
third decimal). -/
def lclRate : RateCard :=
  { id := 1, origin_port_id := 1, destination_port_id := 2,
    container_type := "LCL", base_ocean_freight := 6001/1000,
    effective_from := 0, is_active := true }

/-- A percentage surcharge of 500%. -/
def pctSurcharge : Surcharge :=
  { id := 1, charge_code := "PCT", charge_name := "Percentage Surcharge",
    calculation_type := "percentage", amount := 500, applies_to := "all",
    origin_port_id := none, destination_port_id := none, is_active := true }

/-- An FCL shipment with 2 containers. -/
def fclShipment : Shipment :=
  { id := 2, shipper_id := 1, consignee_id := 2, origin_port_id := 1,
    destination_port_id := 2, container_type := "20GP",
    container_count := some 2, cbm := none, bill_to := "shipper" }

/-- An FCL rate card at 1800 per container. -/
def fclRate : RateCard :=
  { id := 2, origin_port_id := 1, destination_port_id := 2,
    container_type := "20GP", base_ocean_freight := 1800,
    effective_from := 0, is_active := true }

/-- An LCL rate card at 50 per CBM (below the LCL_MIN threshold for 1 CBM). -/
def smallLclRate : RateCard :=
  { id := 3, origin_port_id := 1, destination_port_id := 2,
    container_type := "LCL", base_ocean_freight := 50,
    effective_from := 0, is_active := true }

/-- An LCL shipment with 1 CBM. -/
def smallLclShipment : Shipment :=
  { id := 3, shipper_id := 1, consignee_id := 2, origin_port_id := 1,
    destination_port_id := 2, container_type := "LCL", container_count := none,
    cbm := some 1, bill_to := "shipper" }

/-- The fixed LCL minimum surcharge (amount 120, code `LCL_MIN`). -/
def lclMinSurcharge : Surcharge :=
  { id := 2, charge_code := "LCL_MIN", charge_name := "LCL Minimum Charge",
    calculation_type := "fixed", amount := 120, applies_to := "LCL",
    origin_port_id := none, destination_port_id := none, is_active := true }

/-- A fixed documentation surcharge with code `DOC`, amount 10. -/
def docSurchargeA : Surcharge :=
  { id := 3, charge_code := "DOC", charge_name := "Documentation Fee A",
    calculation_type := "fixed", amount := 10, applies_to := "all",
    origin_port_id := none, destination_port_id := none, is_active := true }

/-- A second fixed surcharge with the same code `DOC`, amount 20. -/
def docSurchargeB : Surcharge :=
  { id := 4, charge_code := "DOC", charge_name := "Documentation Fee B",
    calculation_type := "fixed", amount := 20, applies_to := "all",
    origin_port_id := none, destination_port_id := none, is_active := true }

/-- A voided invoice with a 100.00 total and nothing paid. -/
def voidInvoice : Invoice :=
  { id := 1, invoice_number := "INV-2026-0001", shipment_id := 1, client_id := 1,
    issue_date := 0, due_date := 30, subtotal := 100, tax_amount := 0,
    total_amount := 100, amount_paid := 0, balance_due := 100, status := "void" }

/-- A fully paid invoice with a 100.00 total. -/
def paidInvoice : Invoice :=
  { id := 2, invoice_number := "INV-2026-0002", shipment_id := 2, client_id := 1,
    issue_date := 0, due_date := 30, subtotal := 100, tax_amount := 0,
    total_amount := 100, amount_paid := 100, balance_due := 0, status := "paid" }

/-- A draft invoice with a 100.00 total and nothing paid. -/
def draftInvoice : Invoice :=
  { id := 3, invoice_number := "INV-2026-0003", shipment_id := 3, client_id := 1,
    issue_date := 0, due_date := 30, subtotal := 100, tax_amount := 0,
    total_amount := 100, amount_paid := 0, balance_due := 100, status := "draft" }

/-- The sent invoice of the specification's worked example: total 4375.00,
nothing paid yet, due on day 30. -/
def sentInvoice : Invoice :=
  { id := 4, invoice_number := "INV-2026-0004", shipment_id := 4, client_id := 1,
    issue_date := 0, due_date := 30, subtotal := 4375, tax_amount := 0,
    total_amount := 4375, amount_paid := 0, balance_due := 4375, status := "sent" }

/-- A past-due invoice that is only partially paid. -/
def partialInvoice : Invoice :=
  { id := 5, invoice_number := "INV-2026-0005", shipment_id := 5, client_id := 1,
    issue_date := 0, due_date := 10, subtotal := 200, tax_amount := 0,
    total_amount := 200, amount_paid := 50, balance_due := 150,
    status := "partial" }

/-- A session holding only the voided invoice, for exercising
`record_payment` against a `void` invoice. -/
def voidInvoiceDb : Db :=
  { ports := [], clients := [], shipments := [], rate_cards := [],
    surcharges := [], invoices := [voidInvoice], invoice_lines := [],
    payments := [] }

/-- A session in which shipment 1 exists and already carries the voided
invoice, for exercising the Generate conflict check. -/
def voidConflictDb : Db :=
  { ports := [], clients := [⟨1, some 30⟩], shipments := [lclShipment],
    rate_cards := [lclRate], surcharges := [], invoices := [voidInvoice],
    invoice_lines := [], payments := [] }

/-- Two Asian ports and one American port, for exercising the rate cascade. -/
def portsFixture : List Port :=
  [⟨1, "CNSHA", "Asia"⟩, ⟨2, "USLAX", "Americas"⟩, ⟨3, "CNNGB", "Asia"⟩]

/-- Two active exact-match rate cards for route 1→2 at different effective
dates. -/
def cardsFixture : List RateCard :=
  [{ id := 10, origin_port_id := 1, destination_port_id := 2,
     container_type := "40GP", base_ocean_freight := 2000,
     effective_from := 10, is_active := true },
   { id := 11, origin_port_id := 1, destination_port_id := 2,
     container_type := "40GP", base_ocean_freight := 2100,
     effective_from := 20, is_active := true }]

/- ### Helper lemmas -/

/-- `firstMaxByEffective` returns `none` exactly on the empty list. -/
theorem firstMaxByEffective_eq_none_iff {l : List RateCard} :
    firstMaxByEffective l = none ↔ l = [] := by
  cases l with
  | nil => simp [firstMaxByEffective]
  | cons x xs =>
    simp only [firstMaxByEffective]
    cases h : firstMaxByEffective xs with
    | none => simp
    | some y =>
      constructor
      · intro hc
        by_cases hlt : x.effective_from < y.effective_from <;> simp [hlt] at hc
      · intro hc
        exact absurd hc (List.cons_ne_nil x xs)

/-- A result of `firstMaxByEffective` is a member of the list and has the
greatest `effective_from` among its members. -/
theorem firstMaxByEffective_spec :
    ∀ {l : List RateCard} {c : RateCard}, firstMaxByEffective l = some c →
      c ∈ l ∧ ∀ x ∈ l, x.effective_from ≤ c.effective_from := by
  intro l
  induction l with
  | nil => intro c h; simp [firstMaxByEffective] at h
  | cons x xs ih =>
    intro c h
    simp only [firstMaxByEffective] at h
    cases hxs : firstMaxByEffective xs with
    | none =>
      simp only [hxs] at h
      have hnil : xs = [] := firstMaxByEffective_eq_none_iff.mp hxs
      cases h
      subst hnil
      exact ⟨List.mem_singleton.mpr rfl, by simp⟩
    | some y =>
      simp only [hxs] at h
      obtain ⟨hymem, hymax⟩ := ih hxs
      by_cases hlt : x.effective_from < y.effective_from
      · rw [if_pos hlt] at h
        cases h
        refine ⟨List.mem_cons_of_mem x hymem, ?_⟩
        intro z hz
        rcases List.mem_cons.mp hz with hz | hz
        · exact hz ▸ le_of_lt hlt
        · exact hymax z hz
      · rw [if_neg hlt] at h
        cases h
        refine ⟨List.mem_cons_self x xs, ?_⟩
        intro z hz
        rcases List.mem_cons.mp hz with hz | hz
        · exact hz ▸ le_refl _
        · exact le_trans (hymax z hz) (not_lt.mp hlt)

/-- The ocean-freight line always carries charge code `OFR`. -/
theorem oceanLine_code (s : Shipment) (rc : RateCard) :
    (oceanLine s rc).charge_code = "OFR" := by
  unfold oceanLine
  by_cases h : s.container_type == "LCL" <;> simp [h]

/-- A line emitted for a surcharge carries that surcharge's charge code. -/
theorem surchargeLine_code {s : Shipment} {oft : ℚ} {su : Surcharge}
    {li : LineItem} (h : surchargeLine s oft su = some li) :
    li.charge_code = su.charge_code := by
  simp only [surchargeLine] at h
  repeat' split at h
  all_goals first
    | exact Option.noConfusion h
    | (injection h with h2; subst h2; rfl)

/-- The charge codes of the surcharge lines form a sublist of the charge codes
of the surcharges supplied. -/
theorem surchargeLines_code_sublist (s : Shipment) (oft : ℚ) :
    ∀ scs : List Surcharge,
      ((scs.filterMap (surchargeLine s oft)).map (fun li => li.charge_code)).Sublist
        (scs.map (fun su => su.charge_code)) := by
  intro scs
  induction scs with
  | nil => simp
  | cons su rest ih =>
    cases h : surchargeLine s oft su with
    | none =>
      simp only [List.filterMap_cons, h, List.map_cons]
      exact ih.cons su.charge_code
    | some li =>
      simp only [List.filterMap_cons, h, List.map_cons, surchargeLine_code h]
      exact ih.cons₂ su.charge_code

/- ### Claim C5 -/

/-- C5: for every invoice and payment amount, `record_payment`'s invoice
update adds the amount to `amount_paid` with no upper bound, recomputes
`balance_due = max 0 (total_amount - amount_paid)` (so overpayment clamps the
balance at zero, never negative), sets the status to `paid` when the balance
reaches zero, and to `partial` when something has been paid but a balance
remains. -/
theorem record_payment_amounts_and_status (inv : Invoice) (amount : ℚ) :
    (apply_payment_update inv amount).amount_paid = inv.amount_paid + amount ∧
    (apply_payment_update inv amount).balance_due
        = max 0 (inv.total_amount - (inv.amount_paid + amount)) ∧
    ((apply_payment_update inv amount).balance_due = 0 →
      (apply_payment_update inv amount).status = "paid") ∧
    (0 < (apply_payment_update inv amount).balance_due →
      0 < (apply_payment_update inv amount).amount_paid →
      (apply_payment_update inv amount).status = "partial") := by
  simp only [apply_payment_update]
  split_ifs with h1 h2
  · exact ⟨rfl, by simp [max_eq_left h1], fun _ => rfl,
      fun hb _ => absurd hb (lt_irrefl 0)⟩
  · refine ⟨rfl, ?_, ?_, fun _ _ => rfl⟩
    · simp [max_eq_right (le_of_lt (not_le.mp h1))]
    · intro hb
      exact absurd hb (ne_of_gt (not_le.mp h1))
  · refine ⟨rfl, ?_, ?_, ?_⟩
    · simp [max_eq_right (le_of_lt (not_le.mp h1))]
    · intro hb
      exact absurd hb (ne_of_gt (not_le.mp h1))
    · intro _ hp
      exact absurd hp h2

/-- Witness for C5: paying 4375.00 on the specification's worked 4375.00
invoice leaves `amount_paid = 4375`, clamps the balance at zero and marks the
invoice `paid`. -/
theorem record_payment_amounts_and_status_witness :
    (apply_payment_update sentInvoice 4375).balance_due = 0 ∧
    (apply_payment_update sentInvoice 4375).status = "paid" :=
  ⟨by decide,
   (record_payment_amounts_and_status sentInvoice 4375).2.2.1 (by decide)⟩

/- ### Claim C10 -/

/-- C10: `record_payment` decides the new status from the amounts alone: on
any invoice, whatever its current status (including `draft`), a payment that
brings `amount_paid` up to `total_amount` sets the status directly to `paid`,
so an invoice can become `paid` without ever having been `sent`. -/
theorem record_payment_pays_from_amounts (inv : Invoice) (amount : ℚ)
    (h : inv.total_amount ≤ inv.amount_paid + amount) :
    (apply_payment_update inv amount).status = "paid" := by
  simp only [apply_payment_update]
  rw [if_pos (by linarith : inv.total_amount - (inv.amount_paid + amount) ≤ 0)]

/-- Witness for C10: a `draft` invoice with a 100.00 total paid in full
becomes `paid` directly, never having been `sent`. -/
theorem record_payment_pays_from_amounts_witness :
    draftInvoice.status = "draft" ∧
    draftInvoice.total_amount ≤ draftInvoice.amount_paid + 100 ∧
    (apply_payment_update draftInvoice 100).status = "paid" :=
  ⟨by decide, by decide,
   record_payment_pays_from_amounts draftInvoice 100 (by decide)⟩

/- ### Claim C3 -/

/-- Counterexample to C3: `record_payment` of 100.00 against the voided
100.00 invoice moves its status to `paid`; the `void` status is not
preserved by payment application. -/
theorem record_payment_void_not_preserved_cex :
    voidInvoiceDb.invoices.map (fun i => i.status) = ["void"] ∧
    (record_payment voidInvoiceDb 1 100 0 "wire" "REF-1" "").toOption.map
        (fun r => r.1.invoices.map (fun i => i.status)) = some ["paid"] := by
  constructor
  · decide
  · decide

/-- C3 (amended): a `paid` invoice whose amounts agree with its status
(`amount_paid ≥ total_amount`) stays `paid` under any non-negative payment;
but `record_payment` never reads the current status, so a `void` invoice does
not keep its status: a payment covering the total moves it to `paid` (see the
counterexample). -/
theorem record_payment_paid_stays_paid (inv : Invoice) (amount : ℚ)
    (hst : inv.status = "paid") (hamt : inv.total_amount ≤ inv.amount_paid)
    (hpos : 0 ≤ amount) :
    (apply_payment_update inv amount).status = "paid" := by
  simp only [apply_payment_update]
  rw [if_pos (by linarith : inv.total_amount - (inv.amount_paid + amount) ≤ 0)]

/-- Witness for C3 (amended): a further 50.00 payment on the fully paid
100.00 invoice leaves it `paid`. -/
theorem record_payment_paid_stays_paid_witness :
    paidInvoice.status = "paid" ∧
    paidInvoice.total_amount ≤ paidInvoice.amount_paid ∧
    (apply_payment_update paidInvoice 50).status = "paid" :=
  ⟨by decide, by decide,
   record_payment_paid_stays_paid paidInvoice 50 (by decide) (by decide)
     (by decide)⟩

/- ### Claim C7 -/

/-- C7: the overdue sweep rewrites to `overdue` exactly those invoices whose
status is exactly `sent` and whose due date is strictly before today — every
other invoice (whatever its status or due date) is returned unchanged — and
returns the number of invoices so transitioned. -/
theorem check_overdue_marks_exactly_sent_past_due (db : Db) (today : ℤ) :
    (check_overdue db today).1.invoices
        = db.invoices.map (fun i =>
            if i.status = "sent" ∧ i.due_date < today
            then { i with status := "overdue" } else i) ∧
    (check_overdue db today).2
        = (db.invoices.filter
            (fun i => decide (i.status = "sent" ∧ i.due_date < today))).length := by
  have hp : ∀ i : Invoice, overduePred today i
      = decide (i.status = "sent" ∧ i.due_date < today) := by
    intro i
    by_cases h1 : i.status = "sent" <;> by_cases h2 : i.due_date < today <;>
      simp [overduePred, h1, h2]
  constructor
  · simp only [check_overdue]
    induction db.invoices with
    | nil => rfl
    | cons i rest ih =>
      simp only [List.map_cons]
      rw [List.cons_eq_cons]
      refine ⟨?_, ih⟩
      rw [hp i]
      by_cases h : i.status = "sent" ∧ i.due_date < today <;> simp [h]
  · simp only [check_overdue]
    induction db.invoices with
    | nil => rfl
    | cons i rest ih =>
      rw [List.filter_cons, List.filter_cons, hp i]
      by_cases h : i.status = "sent" ∧ i.due_date < today <;>
        simp [h, ih]

/- ### Claim C9 -/

/-- C9: invoice numbering returns sequence `0001` when no stored invoice
number carries the `INV-2026-` prefix; otherwise it takes the maximum stored
number with that prefix, parses its trailing segment, increments it and
zero-pads to 4 digits; and when the trailing segment fails to parse it treats
the sequence as 0 and increments (yielding `0001` again). -/
theorem get_next_invoice_number_spec (invoices : List Invoice) :
    (((invoices.map (fun i => i.invoice_number)).filter
          (fun s => strStartsWith s "INV-2026-")) = [] →
      get_next_invoice_number invoices = "INV-2026-0001") ∧
    (∀ m k,
      maxString ((invoices.map (fun i => i.invoice_number)).filter
          (fun s => strStartsWith s "INV-2026-")) = some m →
      parseNatDigits (lastSegment m).data = some k →
      get_next_invoice_number invoices = "INV-2026-" ++ pad4 (k + 1)) ∧
    (∀ m,
      maxString ((invoices.map (fun i => i.invoice_number)).filter
          (fun s => strStartsWith s "INV-2026-")) = some m →
      parseNatDigits (lastSegment m).data = none →
      get_next_invoice_number invoices = "INV-2026-0001") := by
  refine ⟨?_, ?_, ?_⟩
  · intro h
    simp only [get_next_invoice_number, h]
    rfl
  · intro m k hmax hparse
    simp only [get_next_invoice_number, hmax, hparse, Option.getD_some]
  · intro m hmax hparse
    simp only [get_next_invoice_number, hmax, hparse, Option.getD_none]
    rfl

/-- Witness for C9: with `INV-2026-0007` as the stored maximum the next
number is `INV-2026-0008`; with no stored numbers it is `INV-2026-0001`. -/
theorem get_next_invoice_number_spec_witness :
    maxString (((
        [{ id := 1, invoice_number := "INV-2026-0007", shipment_id := 1,
           client_id := 1, issue_date := 0, due_date := 30, subtotal := 0,
           tax_amount := 0, total_amount := 0, amount_paid := 0,
           balance_due := 0, status := "draft" }] : List Invoice).map
          (fun i => i.invoice_number)).filter
        (fun s => strStartsWith s "INV-2026-")) = some "INV-2026-0007" ∧
    parseNatDigits (lastSegment "INV-2026-0007").data = some 7 ∧
    get_next_invoice_number
        [{ id := 1, invoice_number := "INV-2026-0007", shipment_id := 1,
           client_id := 1, issue_date := 0, due_date := 30, subtotal := 0,
           tax_amount := 0, total_amount := 0, amount_paid := 0,
           balance_due := 0, status := "draft" }] = "INV-2026-0008" ∧
    get_next_invoice_number [] = "INV-2026-0001" := by
  refine ⟨by decide, by decide, ?_, ?_⟩
  · have h := (get_next_invoice_number_spec
      [{ id := 1, invoice_number := "INV-2026-0007", shipment_id := 1,
         client_id := 1, issue_date := 0, due_date := 30, subtotal := 0,
         tax_amount := 0, total_amount := 0, amount_paid := 0,
         balance_due := 0, status := "draft" }]).2.1 "INV-2026-0007" 7
      (by decide) (by decide)
    rw [h]
    decide
  · exact (get_next_invoice_number_spec []).1 (by decide)

/- ### Claim C4 -/

/-- Counterexample to C4: shipment 1's only invoice is void, yet Generate
still fails with Conflict (the duplicate check ignores invoice status). -/
theorem generate_invoice_void_conflict_cex :
    voidConflictDb.invoices.map (fun i => (i.shipment_id, i.status))
        = [(1, "void")] ∧
    generate_invoice voidConflictDb 1 0 = .error .conflict := by
  constructor
  · decide
  · decide

/-- C4 (amended): when the shipment exists and any invoice — void or not —
already references it, Generate fails with Conflict (the error is raised
before any write, so nothing is created and existing rows are untouched);
and when no invoice references the shipment, Generate never fails with
Conflict. -/
theorem generate_invoice_conflict_on_existing (db : Db) (sid : ℕ) (today : ℤ) :
    (((db.shipments.find? (fun s => s.id == sid)).isSome = true) →
      ((db.invoices.find? (fun i => i.shipment_id == sid)).isSome = true) →
      generate_invoice db sid today = .error .conflict) ∧
    ((db.invoices.find? (fun i => i.shipment_id == sid)) = none →
      generate_invoice db sid today ≠ .error .conflict) := by
  constructor
  · intro hs hi
    rw [Option.isSome_iff_exists] at hs hi
    obtain ⟨s, hs⟩ := hs
    obtain ⟨i, hi⟩ := hi
    simp only [generate_invoice, hs, hi]
  · intro hi
    simp only [generate_invoice, hi]
    cases hs : db.shipments.find? (fun s => s.id == sid) with
    | none => simp
    | some s =>
      simp only []
      cases hc : (if s.bill_to == "consignee" then
          db.clients.find? (fun c => c.id == s.consignee_id)
        else db.clients.find? (fun c => c.id == s.shipper_id)) with
      | none => simp
      | some client =>
        simp only []
        cases hr : find_rate_card db.ports db.rate_cards s.origin_port_id
            s.destination_port_id s.container_type with
        | none => simp
        | some rc => simp

/-- Witness for C4 (amended): in the session where shipment 1 already has the
void invoice, both find-queries succeed and Generate returns Conflict; in a
session with the invoice removed, Generate does not return Conflict. -/
theorem generate_invoice_conflict_on_existing_witness :
    ((voidConflictDb.shipments.find? (fun s => s.id == 1)).isSome = true) ∧
    ((voidConflictDb.invoices.find? (fun i => i.shipment_id == 1)).isSome
        = true) ∧
    generate_invoice voidConflictDb 1 0 = .error .conflict ∧
    ({ voidConflictDb with invoices := [] } : Db).invoices.find?
        (fun i => i.shipment_id == 1) = none ∧
    generate_invoice { voidConflictDb with invoices := [] } 1 0
      ≠ .error .conflict :=
  ⟨by decide, by decide,
   (generate_invoice_conflict_on_existing voidConflictDb 1 0).1
     (by decide) (by decide),
   by decide,
   (generate_invoice_conflict_on_existing
     { voidConflictDb with invoices := [] } 1 0).2 (by decide)⟩

/- ### Claim C1 -/

/-- Counterexample to C1: with an LCL rate of 6.001 per CBM and 4 CBM the
unrounded ocean-freight total is 24.004 (rounded line total 24.00); a 500%
percentage surcharge yields a line total of 120.02, not the 120.00 that the
rounded-base formula of the claim gives. -/
theorem percentage_surcharge_rounded_base_cex :
    (calculate_line_items lclShipment lclRate [pctSurcharge]).map
        (fun li => (li.charge_code, li.line_total))
      = [("OFR", 24), ("PCT", 6001/50)] ∧
    round2 (pctSurcharge.amount / 100
        * round2 (ocean_freight_total lclShipment lclRate)) = 120 ∧
    ((6001 : ℚ)/50) ≠ 120 := by
  refine ⟨by decide, by decide, by decide⟩

/-- C1 (amended): for every percentage surcharge in the list, the Charge
Calculator emits a line with quantity 1 whose unit price and line total both
equal (amount/100) times the *unrounded* ocean-freight total, the result
rounded to 2 decimals (the rounded ocean-freight line total is not the
percentage base). -/
theorem percentage_surcharge_line (s : Shipment) (rc : RateCard)
    (surcharges : List Surcharge) (su : Surcharge)
    (hmem : su ∈ surcharges) (hcalc : su.calculation_type = "percentage") :
    ∃ li ∈ calculate_line_items s rc surcharges,
      li.charge_code = su.charge_code ∧ li.quantity = 1 ∧
      li.unit_price = round2 (su.amount / 100 * ocean_freight_total s rc) ∧
      li.line_total = round2 (su.amount / 100 * ocean_freight_total s rc) := by
  refine ⟨{ charge_code := su.charge_code, description := su.charge_name,
            quantity := 1,
            unit_price := round2 (su.amount / 100 * ocean_freight_total s rc),
            line_total := round2 (su.amount / 100 * ocean_freight_total s rc) },
          ?_, rfl, rfl, rfl, rfl⟩
  simp only [calculate_line_items]
  apply List.mem_cons_of_mem
  rw [List.mem_insertionSort]
  apply List.mem_filterMap.mpr
  refine ⟨su, hmem, ?_⟩
  simp only [surchargeLine, hcalc,
    show ("percentage" == "per_container") = false from rfl,
    show ("percentage" == "per_cbm") = false from rfl,
    show ("percentage" == "fixed") = false from rfl,
    show ("percentage" == "percentage") = true from rfl,
    Bool.false_and, Bool.true_and, if_false, if_true, Bool.false_eq_true]

/-- Witness for C1 (amended): the 500% surcharge on the 24.004 ocean-freight
total yields the percentage line computed from the unrounded base. -/
theorem percentage_surcharge_line_witness :
    pctSurcharge ∈ [pctSurcharge] ∧
    pctSurcharge.calculation_type = "percentage" ∧
    ∃ li ∈ calculate_line_items lclShipment lclRate [pctSurcharge],
      li.charge_code = pctSurcharge.charge_code ∧ li.quantity = 1 ∧
      li.unit_price = round2 (pctSurcharge.amount / 100
          * ocean_freight_total lclShipment lclRate) ∧
      li.line_total = round2 (pctSurcharge.amount / 100
          * ocean_freight_total lclShipment lclRate) :=
  ⟨List.mem_singleton.mpr rfl, rfl,
   percentage_surcharge_line lclShipment lclRate [pctSurcharge] pctSurcharge
     (List.mem_singleton.mpr rfl) rfl⟩

/- ### Claim C2 -/

/-- A fixed surcharge whose LCL_MIN skip condition is false always emits the
fixed line (quantity 1, unit price the amount). -/
theorem fixed_surchargeLine_eq {s : Shipment} {su : Surcharge} {oft : ℚ}
    (hfx : su.calculation_type = "fixed")
    (hskip : (su.charge_code == "LCL_MIN" && (s.container_type == "LCL")
        && decide (LCL_MIN_THRESHOLD ≤ oft)) = false) :
    surchargeLine s oft su
      = some { charge_code := su.charge_code, description := su.charge_name,
               quantity := 1, unit_price := su.amount,
               line_total := round2 su.amount } := by
  simp only [surchargeLine, hfx,
    show ("fixed" == "per_container") = false from rfl,
    show ("fixed" == "per_cbm") = false from rfl,
    show ("fixed" == "fixed") = true from rfl,
    Bool.false_and, Bool.true_and, if_false, if_true, Bool.false_eq_true,
    hskip]

/-- Counterexample to C2: the Charge Calculator does emit an `LCL_MIN` line
for an FCL shipment when the fixed `LCL_MIN` surcharge is in the supplied
list — the skip logic only ever fires for LCL shipments. -/
theorem lcl_min_fcl_emitted_cex :
    fclShipment.container_type = "20GP" ∧
    (calculate_line_items fclShipment fclRate [lclMinSurcharge]).map
        (fun li => li.charge_code) = ["OFR", "LCL_MIN"] := by
  refine ⟨by decide, by decide⟩

/-- C2 (amended): for an LCL shipment whose `LCL_MIN`-coded surcharges are the
fixed one: when the ocean-freight total is at least 120.0 no `LCL_MIN` line is
emitted, and when it is below 120.0 the fixed `LCL_MIN` line (quantity 1,
unit price the amount) is emitted; for a non-LCL (FCL) shipment the skip never
applies, so a fixed `LCL_MIN` surcharge in the list always produces its line
(with the seeded catalog, where `LCL_MIN` applies only to `LCL`, the Surcharge
Selector keeps it out of FCL invoices instead). -/
theorem lcl_min_surcharge_behavior (s : Shipment) (rc : RateCard)
    (surcharges : List Surcharge) :
    (s.container_type = "LCL" →
     (∀ su ∈ surcharges, su.charge_code = "LCL_MIN" →
        su.calculation_type = "fixed") →
     LCL_MIN_THRESHOLD ≤ ocean_freight_total s rc →
     ∀ li ∈ calculate_line_items s rc surcharges,
       li.charge_code ≠ "LCL_MIN") ∧
    (∀ su ∈ surcharges, su.charge_code = "LCL_MIN" →
     su.calculation_type = "fixed" →
     s.container_type = "LCL" →
     ocean_freight_total s rc < LCL_MIN_THRESHOLD →
     ∃ li ∈ calculate_line_items s rc surcharges,
       li.charge_code = "LCL_MIN" ∧ li.quantity = 1 ∧
       li.unit_price = su.amount ∧ li.line_total = round2 su.amount) ∧
    (∀ su ∈ surcharges, su.charge_code = "LCL_MIN" →
     su.calculation_type = "fixed" →
     s.container_type ≠ "LCL" →
     ∃ li ∈ calculate_line_items s rc surcharges,
       li.charge_code = "LCL_MIN" ∧ li.quantity = 1 ∧
       li.unit_price = su.amount ∧ li.line_total = round2 su.amount) := by
  refine ⟨?_, ?_, ?_⟩
  · intro hlcl hfixedOnly hthr li hli hLM
    simp only [calculate_line_items] at hli
    rcases List.mem_cons.mp hli with h | h
    · rw [h, oceanLine_code] at hLM
      exact absurd hLM (by decide)
    · rw [List.mem_insertionSort] at h
      obtain ⟨su, hsu, hline⟩ := List.mem_filterMap.mp h
      have hcode := surchargeLine_code hline
      rw [hcode] at hLM
      have hfx := hfixedOnly su hsu hLM
      have hnone : surchargeLine s (ocean_freight_total s rc) su = none := by
        simp only [surchargeLine, hfx, hLM, hlcl,
          show ("fixed" == "per_container") = false from rfl,
          show ("fixed" == "per_cbm") = false from rfl,
          show ("fixed" == "fixed") = true from rfl,
          show ("LCL_MIN" == "LCL_MIN") = true from rfl,
          show ("LCL" == "LCL") = true from rfl,
          decide_eq_true hthr,
          Bool.false_and, Bool.true_and, Bool.and_true, if_false, if_true,
          Bool.false_eq_true]
      rw [hnone] at hline
      exact Option.noConfusion hline
  · intro su hsu hLM hfx hlcl hlt
    refine ⟨{ charge_code := su.charge_code, description := su.charge_name,
              quantity := 1, unit_price := su.amount,
              line_total := round2 su.amount }, ?_, hLM, rfl, rfl, rfl⟩
    simp only [calculate_line_items]
    apply List.mem_cons_of_mem
    rw [List.mem_insertionSort]
    apply List.mem_filterMap.mpr
    refine ⟨su, hsu, ?_⟩
    apply fixed_surchargeLine_eq hfx
    rw [decide_eq_false (not_le.mpr hlt), Bool.and_false]
  · intro su hsu hLM hfx hfcl
    refine ⟨{ charge_code := su.charge_code, description := su.charge_name,
              quantity := 1, unit_price := su.amount,
              line_total := round2 su.amount }, ?_, hLM, rfl, rfl, rfl⟩
    simp only [calculate_line_items]
    apply List.mem_cons_of_mem
    rw [List.mem_insertionSort]
    apply List.mem_filterMap.mpr
    refine ⟨su, hsu, ?_⟩
    apply fixed_surchargeLine_eq hfx
    rw [beq_eq_false_iff_ne.mpr hfcl, Bool.and_false, Bool.false_and]

/-- Witness for C2 (amended): with a 200.00 LCL ocean-freight total the
`LCL_MIN` surcharge is skipped; with a 50.00 total its line is emitted. -/
theorem lcl_min_surcharge_behavior_witness :
    (LCL_MIN_THRESHOLD ≤ ocean_freight_total lclShipment smallLclRate) ∧
    (∀ li ∈ calculate_line_items lclShipment smallLclRate [lclMinSurcharge],
       li.charge_code ≠ "LCL_MIN") ∧
    (ocean_freight_total smallLclShipment smallLclRate < LCL_MIN_THRESHOLD) ∧
    (∃ li ∈ calculate_line_items smallLclShipment smallLclRate
        [lclMinSurcharge],
       li.charge_code = "LCL_MIN" ∧ li.quantity = 1 ∧
       li.unit_price = lclMinSurcharge.amount ∧
       li.line_total = round2 lclMinSurcharge.amount) :=
  ⟨by decide,
   (lcl_min_surcharge_behavior lclShipment smallLclRate [lclMinSurcharge]).1
     rfl (by decide) (by decide),
   by decide,
   (lcl_min_surcharge_behavior smallLclShipment smallLclRate
       [lclMinSurcharge]).2.1 lclMinSurcharge (List.mem_singleton.mpr rfl)
     rfl rfl rfl (by decide)⟩

/- ### Claim C8 -/

/-- Counterexample to C8: two distinct applicable surcharges may share a
charge code (the schema does not force uniqueness); the resulting consecutive
equal codes are not *strictly* ascending. -/
theorem line_items_strict_ordering_cex :
    (calculate_line_items fclShipment fclRate [docSurchargeB, docSurchargeA]).map
        (fun li => li.charge_code) = ["OFR", "DOC", "DOC"] ∧
    ¬ List.Pairwise (fun a b : String => a < b) ["DOC", "DOC"] := by
  refine ⟨by decide, ?_⟩
  intro h
  exact lt_irrefl _ ((List.pairwise_cons.mp h).1 "DOC" (List.mem_singleton.mpr rfl))

/-- C8 (amended): the line-item list always starts with the ocean-freight
line, the remaining lines are sorted by charge code in ascending (non-strict)
lexicographic order — deterministically, by a pure stable insertion sort —
and whenever the supplied surcharges' charge codes are pairwise distinct the
order is strictly ascending. -/
theorem line_items_ordering (s : Shipment) (rc : RateCard)
    (surcharges : List Surcharge) :
    ∃ rest, calculate_line_items s rc surcharges = oceanLine s rc :: rest ∧
      rest.Pairwise (fun a b => a.charge_code ≤ b.charge_code) ∧
      ((surcharges.map (fun su => su.charge_code)).Nodup →
        rest.Pairwise (fun a b => a.charge_code < b.charge_code)) := by
  refine ⟨List.insertionSort lineLe
      (surcharges.filterMap (surchargeLine s (ocean_freight_total s rc))),
    rfl, ?_, ?_⟩
  · exact (List.sorted_insertionSort lineLe _).imp
      (fun h => String.le_iff_toList_le.mpr h)
  · intro hnodup
    have h1 : ((surcharges.filterMap
        (surchargeLine s (ocean_freight_total s rc))).map
          (fun li => li.charge_code)).Nodup :=
      hnodup.sublist (surchargeLines_code_sublist s _ surcharges)
    have hperm : ((List.insertionSort lineLe
        (surcharges.filterMap (surchargeLine s (ocean_freight_total s rc)))).map
          (fun li => li.charge_code)).Perm
        ((surcharges.filterMap (surchargeLine s (ocean_freight_total s rc))).map
          (fun li => li.charge_code)) :=
      (List.perm_insertionSort lineLe _).map _
    have h2 : ((List.insertionSort lineLe
        (surcharges.filterMap (surchargeLine s (ocean_freight_total s rc)))).map
          (fun li => li.charge_code)).Nodup := hperm.nodup_iff.mpr h1
    have hne : (List.insertionSort lineLe
        (surcharges.filterMap
          (surchargeLine s (ocean_freight_total s rc)))).Pairwise
          (fun a b => a.charge_code ≠ b.charge_code) := List.pairwise_map.mp h2
    have hsorted := List.sorted_insertionSort lineLe
      (surcharges.filterMap (surchargeLine s (ocean_freight_total s rc)))
    refine hsorted.imp₂ ?_ hne
    intro a b hle hnecode
    exact String.lt_iff_toList_lt.mpr
      (lt_of_le_of_ne hle (fun h => hnecode (String.toList_inj.mp h)))

/-- Witness for C8 (amended): with the distinct charge codes `DOC` and `PCT`
the surcharge lines come out strictly ascending after the ocean-freight
line. -/
theorem line_items_ordering_witness :
    (([docSurchargeA, pctSurcharge].map (fun su => su.charge_code)).Nodup) ∧
    ∃ rest, calculate_line_items fclShipment fclRate
          [docSurchargeA, pctSurcharge]
        = oceanLine fclShipment fclRate :: rest ∧
      rest.Pairwise (fun a b => a.charge_code ≤ b.charge_code) ∧
      rest.Pairwise (fun a b => a.charge_code < b.charge_code) := by
  obtain ⟨rest, h1, h2, h3⟩ :=
    line_items_ordering fclShipment fclRate [docSurchargeA, pctSurcharge]
  exact ⟨by decide, rest, h1, h2, h3 (by decide)⟩

/- ### Claim C6 -/

/-- A `firstMaxByEffective` result over a filtered card list is a member of
the unfiltered list, satisfies the filter, and maximises `effective_from`
among the rows satisfying the filter. -/
theorem firstMax_filter_spec {p : RateCard → Bool} {cards : List RateCard}
    {c : RateCard} (h : firstMaxByEffective (cards.filter p) = some c) :
    c ∈ cards ∧ p c = true ∧
      ∀ x ∈ cards, p x = true → x.effective_from ≤ c.effective_from := by
  obtain ⟨hmem, hmax⟩ := firstMaxByEffective_spec h
  have hm := List.mem_filter.mp hmem
  exact ⟨hm.1, hm.2, fun x hx hpx => hmax x (List.mem_filter.mpr ⟨hx, hpx⟩)⟩

/-- C6: `find_rate_card` evaluates its tiers strictly in order with no
merging.  If any active card matches origin, destination and container type
exactly, it returns an exact match maximising `effective_from`; otherwise, if
the origin port is unresolvable it fails; otherwise, if a card from the
origin's region to the exact destination exists, it returns such a card
maximising `effective_from`; otherwise, if the destination port is
unresolvable it fails — before ever reaching tier 3; otherwise it returns a
region-to-region card maximising `effective_from`, or fails if none exists. -/
theorem find_rate_card_tier_cascade (ports : List Port) (cards : List RateCard)
    (o d : ℕ) (t : String) :
    (cards.filter (exactPred o d t) ≠ [] →
      ∃ c, find_rate_card ports cards o d t = some c ∧ c ∈ cards ∧
        exactPred o d t c = true ∧
        ∀ x ∈ cards, exactPred o d t x = true →
          x.effective_from ≤ c.effective_from) ∧
    (cards.filter (exactPred o d t) = [] →
      ports.find? (fun p => p.id == o) = none →
      find_rate_card ports cards o d t = none) ∧
    (∀ op, cards.filter (exactPred o d t) = [] →
      ports.find? (fun p => p.id == o) = some op →
      cards.filter (regionPred (regionPortIds ports op.region) d t) ≠ [] →
      ∃ c, find_rate_card ports cards o d t = some c ∧ c ∈ cards ∧
        regionPred (regionPortIds ports op.region) d t c = true ∧
        ∀ x ∈ cards, regionPred (regionPortIds ports op.region) d t x = true →
          x.effective_from ≤ c.effective_from) ∧
    (∀ op, cards.filter (exactPred o d t) = [] →
      ports.find? (fun p => p.id == o) = some op →
      cards.filter (regionPred (regionPortIds ports op.region) d t) = [] →
      ports.find? (fun p => p.id == d) = none →
      find_rate_card ports cards o d t = none) ∧
    (∀ op dp, cards.filter (exactPred o d t) = [] →
      ports.find? (fun p => p.id == o) = some op →
      cards.filter (regionPred (regionPortIds ports op.region) d t) = [] →
      ports.find? (fun p => p.id == d) = some dp →
      ((cards.filter (broadPred (regionPortIds ports op.region)
            (regionPortIds ports dp.region) t) ≠ [] →
        ∃ c, find_rate_card ports cards o d t = some c ∧ c ∈ cards ∧
          broadPred (regionPortIds ports op.region)
            (regionPortIds ports dp.region) t c = true ∧
          ∀ x ∈ cards, broadPred (regionPortIds ports op.region)
              (regionPortIds ports dp.region) t x = true →
            x.effective_from ≤ c.effective_from) ∧
       (cards.filter (broadPred (regionPortIds ports op.region)
            (regionPortIds ports dp.region) t) = [] →
        find_rate_card ports cards o d t = none))) := by
  refine ⟨?_, ?_, ?_, ?_, ?_⟩
  · intro hE
    cases hfm : firstMaxByEffective (cards.filter (exactPred o d t)) with
    | none => exact absurd (firstMaxByEffective_eq_none_iff.mp hfm) hE
    | some c =>
      obtain ⟨h1, h2, h3⟩ := firstMax_filter_spec hfm
      exact ⟨c, by simp only [find_rate_card, hfm], h1, h2, h3⟩
  · intro hE hop
    have hfm : firstMaxByEffective (cards.filter (exactPred o d t)) = none := by
      rw [hE]; rfl
    simp only [find_rate_card, hfm, hop]
  · intro op hE hop hR
    have hfm : firstMaxByEffective (cards.filter (exactPred o d t)) = none := by
      rw [hE]; rfl
    cases hfm2 : firstMaxByEffective
        (cards.filter (regionPred (regionPortIds ports op.region) d t)) with
    | none => exact absurd (firstMaxByEffective_eq_none_iff.mp hfm2) hR
    | some c =>
      obtain ⟨h1, h2, h3⟩ := firstMax_filter_spec hfm2
      exact ⟨c, by simp only [find_rate_card, hfm, hop, hfm2], h1, h2, h3⟩
  · intro op hE hop hR hdp
    have hfm : firstMaxByEffective (cards.filter (exactPred o d t)) = none := by
      rw [hE]; rfl
    have hfm2 : firstMaxByEffective
        (cards.filter (regionPred (regionPortIds ports op.region) d t))
          = none := by
      rw [hR]; rfl
    simp only [find_rate_card, hfm, hop, hfm2, hdp]
  · intro op dp hE hop hR hdp
    have hfm : firstMaxByEffective (cards.filter (exactPred o d t)) = none := by
      rw [hE]; rfl
    have hfm2 : firstMaxByEffective
        (cards.filter (regionPred (regionPortIds ports op.region) d t))
          = none := by
      rw [hR]; rfl
    constructor
    · intro hB
      cases hfm3 : firstMaxByEffective
          (cards.filter (broadPred (regionPortIds ports op.region)
            (regionPortIds ports dp.region) t)) with
      | none => exact absurd (firstMaxByEffective_eq_none_iff.mp hfm3) hB
      | some c =>
        obtain ⟨h1, h2, h3⟩ := firstMax_filter_spec hfm3
        exact ⟨c, by simp only [find_rate_card, hfm, hop, hfm2, hdp, hfm3],
          h1, h2, h3⟩
    · intro hB
      have hfm3 : firstMaxByEffective
          (cards.filter (broadPred (regionPortIds ports op.region)
            (regionPortIds ports dp.region) t)) = none := by
        rw [hB]; rfl
      simp only [find_rate_card, hfm, hop, hfm2, hdp, hfm3]

/-- Witness for C6: on a catalog with two active exact matches for route 1→2
(`effective_from` 10 and 20) the exact tier is non-empty and the resolver
returns an exact match with the maximal effective date. -/
theorem find_rate_card_tier_cascade_witness :
    cardsFixture.filter (exactPred 1 2 "40GP") ≠ [] ∧
    ∃ c, find_rate_card portsFixture cardsFixture 1 2 "40GP" = some c ∧
      c ∈ cardsFixture ∧ exactPred 1 2 "40GP" c = true ∧
      ∀ x ∈ cardsFixture, exactPred 1 2 "40GP" x = true →
        x.effective_from ≤ c.effective_from :=
  ⟨by decide,
   (find_rate_card_tier_cascade portsFixture cardsFixture 1 2 "40GP").1
     (by decide)⟩
